import Mathlib

/-!
Shallow embedding of the cpp-async-rest-api-server task backend.

The embedding covers the three layers the claims are about:

* `Database` — src/database.cpp, a SQLite-backed store.  The SQLite table
  is modelled as a list of rows plus the AUTOINCREMENT sequence counter.
  Prepared statements always prepare successfully in the in-memory model
  (the prepare/step I/O-failure paths need a broken database handle, which
  the pure model does not represent); everything that happens after a
  successful prepare is translated statement by statement, including the
  inverted `sqlite3_step` check in `get_task_by_id` and the `throw` that
  precedes `sqlite3_finalize` in `update_task` / `delete_task`.
* `TaskManager` — the validation/orchestration layer (task_manager.cpp,
  provided as src/unnamed/part_000).
* `HttpServer.handle_api_request` — src/http_server.cpp, the router with
  its catch-all `catch (const std::exception&)` boundary.

C++ exceptions are modelled with `Except`: `Err.invalidArg` stands for
`std::invalid_argument`, `Err.runtime` for `std::runtime_error` (both
derive `std::exception` and are caught by the router).  `Err.ub` marks the
one reachable undefined-behavior point of the source: in
`Database::get_task_by_id`, when `sqlite3_step` does not return
`SQLITE_ROW` (no row matched), the code still reads the result columns;
`sqlite3_column_text` yields a NULL pointer on a rowless statement and the
source assigns it to a `std::string`, which is undefined behavior (a crash
on mainstream library implementations, and not a C++ exception, so the
router cannot catch it).

`String.length` in Lean counts characters while `std::string::length`
counts bytes; the two agree on the inputs the theorems below use, and the
claims speak of characters.
-/

namespace TaskServer

/-- Row type of the tasks table and the value type passed between the
layers (struct Task in src/database.h). -/
structure Task where
  id : Int
  title : String
  description : String
  completed : Bool
deriving Repr, DecidableEq, Inhabited

/-- The SQLite database state: the rows of the tasks table in insertion
order, and the AUTOINCREMENT sequence (the largest id ever assigned, 0
when no row was ever inserted). -/
structure Store where
  rows : List Task
  seq : Int
deriving Repr, DecidableEq, Inhabited

/-- The store of a freshly created database file (after the idempotent
CREATE TABLE IF NOT EXISTS). -/
def Store.empty : Store := { rows := [], seq := 0 }

/-- Number of rows whose id column equals `id` — what `sqlite3_changes`
reports after the UPDATE / DELETE statements of src/database.cpp run. -/
def Store.rowCount (s : Store) (id : Int) : Nat :=
  (s.rows.filter (fun r => r.id == id)).length

/-- The C++ exceptions that cross the layer boundaries, plus the reachable
undefined-behavior outcome (which is not an exception and is not caught
by the router). -/
inductive Err where
  | invalidArg (msg : String)
  | runtime (msg : String)
  | ub (msg : String)
deriving Repr, DecidableEq

/-- The message carried by the exception, as `e.what()` reports it. -/
def Err.what : Err → String
  | .invalidArg m => m
  | .runtime m => m
  | .ub m => m

/-- Whether the error is a `std::exception` the router's catch clause
handles (`Err.ub` is a crash, not an exception). -/
def Err.catchable : Err → Bool
  | .invalidArg _ => true
  | .runtime _ => true
  | .ub _ => false

/-- Outcome of one Database method: its result or raised error, the
database state on exit, and whether `sqlite3_finalize` ran on the
statement the method prepared before the method exited. -/
structure DbOut (α : Type) where
  result : Except Err α
  store : Store
  finalized : Bool

/-- What `sqlite3_errmsg` returns after the most recent SQLite call
succeeded — the string the zero-rows-changed throw of
`Database::update_task` / `Database::delete_task` puts in its
`std::runtime_error`. -/
def sqliteNotAnError : String := "not an error"

/-- Shallow embedding of `Database::add_task` (src/database.cpp 54-74).
The INSERT binds only title, description and completed, ignoring the
caller-supplied id; AUTOINCREMENT assigns `seq + 1` and
`sqlite3_last_insert_rowid` returns it.  The statement is finalized on
the successful path. -/
def Database.add_task (s : Store) (task : Task) : DbOut Int :=
  let id := s.seq + 1
  { result := .ok id
    store :=
      { rows := s.rows ++
          [{ id := id, title := task.title, description := task.description,
             completed := task.completed }]
        seq := id }
    finalized := true }

/-- Shallow embedding of `Database::update_task` (src/database.cpp
83-105).  The UPDATE statement steps to `SQLITE_DONE` (so `success` is
true); if `sqlite3_changes` is 0 the code throws
`std::runtime_error(sqlite3_errmsg(db_))` BEFORE reaching
`sqlite3_finalize` (the `success = false` after the throw is dead code),
so on that path the statement is never finalized.  Otherwise every row
whose id matches was overwritten by the UPDATE and the method finalizes
and returns true. -/
def Database.update_task (s : Store) (task : Task) : DbOut Bool :=
  let changes := s.rowCount task.id
  let success := true
  if success && changes == 0 then
    { result := .error (.runtime sqliteNotAnError), store := s, finalized := false }
  else
    { result := .ok success
      store :=
        { s with rows := s.rows.map (fun r =>
            if r.id == task.id then
              { r with title := task.title, description := task.description,
                       completed := task.completed }
            else r) }
      finalized := true }

/-- Shallow embedding of `Database::delete_task` (src/database.cpp
114-133).  Same shape as `update_task`: the DELETE steps to
`SQLITE_DONE`, a zero-rows-changed outcome throws before the finalize,
otherwise the matching rows are gone and the method finalizes and
returns true. -/
def Database.delete_task (s : Store) (id : Int) : DbOut Bool :=
  let changes := s.rowCount id
  let success := true
  if success && changes == 0 then
    { result := .error (.runtime sqliteNotAnError), store := s, finalized := false }
  else
    { result := .ok success
      store := { s with rows := s.rows.filter (fun r => !(r.id == id)) }
      finalized := true }

/-- Shallow embedding of `Database::get_task_by_id` (src/database.cpp
142-167).  The step check is inverted in the source: when a row matches,
`sqlite3_step` returns `SQLITE_ROW`, the `!= SQLITE_ROW` condition is
false and the code takes the else branch — finalize, then throw
"Task not found with id: N".  When NO row matches, `sqlite3_step` returns
`SQLITE_DONE`, the condition is true and the code reads the result
columns of a rowless statement: `sqlite3_column_int` gives 0 and
`sqlite3_column_text` gives NULL, which the source assigns to the
`std::string` fields of `task` — undefined behavior, before any
finalize. -/
def Database.get_task_by_id (s : Store) (id : Int) : DbOut Task :=
  match s.rows.find? (fun r => r.id == id) with
  | some _ =>
      { result := .error (.runtime ("Task not found with id: " ++ toString id))
        store := s
        finalized := true }
  | none =>
      { result := .error (.ub "null sqlite3_column_text assigned to std::string")
        store := s
        finalized := false }

/-- Shallow embedding of `Database::get_all_tasks` (src/database.cpp
176-197): SELECT every row in natural scan order, finalize, return. -/
def Database.get_all_tasks (s : Store) : DbOut (List Task) :=
  { result := .ok s.rows, store := s, finalized := true }

/-- Shallow embedding of `TaskManager::create_task` (part_000 25-36).
The source guards with `if (empty || length > 100)` and rethrows by case
inside the guard; flattened here to the same two sequential checks.  On
success a Task with id 0 and completed false is handed to
`Database::add_task` and the new id is returned. -/
def TaskManager.create_task (s : Store) (title description : String) :
    Except Err (Int × Store) :=
  if title.isEmpty then .error (.invalidArg "Task title cannot be empty")
  else if title.length > 100 then
    .error (.invalidArg "Task title too long (max 100 chars)")
  else
    let out := Database.add_task s
      { id := 0, title := title, description := description, completed := false }
    match out.result with
    | .ok id => .ok (id, out.store)
    | .error e => .error e

/-- Shallow embedding of `TaskManager::update_task` (part_000 49-66).
Validates id and title, fetches the existing row through
`Database::get_task_by_id`, returns false when the fetched id is 0,
otherwise overwrites title/description/completed on the fetched record
and hands it to `Database::update_task`.  (`complited` is the source's
parameter name.) -/
def TaskManager.update_task (s : Store) (id : Int) (title description : String)
    (complited : Bool) : Except Err (Bool × Store) :=
  if id ≤ 0 then .error (.invalidArg "Invalid task ID")
  else if title.isEmpty then .error (.invalidArg "Task title cannot be empty")
  else
    let fetched := Database.get_task_by_id s id
    match fetched.result with
    | .error e => .error e
    | .ok existing_task =>
        if existing_task.id == 0 then .ok (false, s)
        else
          let updated_task :=
            { existing_task with title := title, description := description,
                                 completed := complited }
          let out := Database.update_task s updated_task
          match out.result with
          | .ok b => .ok (b, out.store)
          | .error e => .error e

/-- Shallow embedding of `TaskManager::delete_task` (part_000 76-82):
validate the id, delegate to `Database::delete_task`. -/
def TaskManager.delete_task (s : Store) (id : Int) : Except Err (Bool × Store) :=
  if id ≤ 0 then .error (.invalidArg "Invalid task ID")
  else
    let out := Database.delete_task s id
    match out.result with
    | .ok b => .ok (b, out.store)
    | .error e => .error e

/-- Shallow embedding of `TaskManager::get_task` (part_000 93-102):
validate the id, fetch through `Database::get_task_by_id`, throw
"Task not found" when the fetched id is not positive. -/
def TaskManager.get_task (s : Store) (id : Int) : Except Err Task :=
  if id ≤ 0 then .error (.invalidArg "Invalid task ID")
  else
    match (Database.get_task_by_id s id).result with
    | .error e => .error e
    | .ok task =>
        if task.id ≤ 0 then .error (.runtime "Task not found")
        else .ok task

/-- Shallow embedding of `TaskManager::get_all_tasks` (part_000
109-113): pass-through to the store. -/
def TaskManager.get_all_tasks (s : Store) : Except Err (List Task) :=
  (Database.get_all_tasks s).result

/-- JSON values, as boost::json models them (src/http_server.cpp works
through boost::json::value / object / array). -/
inductive Json where
  | null
  | bool (b : Bool)
  | num (n : Int)
  | str (s : String)
  | arr (elements : List Json)
  | obj (members : List (String × Json))
deriving Repr, Inhabited, BEq

/-- boost::json::value::as_object — throws unless the value is an
object. -/
def Json.as_object : Json → Except Err (List (String × Json))
  | .obj members => .ok members
  | _ => .error (.runtime "value is not an object")

/-- boost::json::object::contains. -/
def Json.objContains (members : List (String × Json)) (key : String) : Bool :=
  members.any (fun kv => kv.fst == key)

/-- boost::json::value::at — requires an object and a present key,
throws otherwise. -/
def Json.at_key : Json → String → Except Err Json
  | .obj members, key =>
      (match members.find? (fun kv => kv.fst == key) with
       | some kv => .ok kv.snd
       | none => .error (.runtime "out of range"))
  | _, _ => .error (.runtime "value is not an object")

/-- boost::json::value::as_string — throws unless the value is a
string. -/
def Json.as_string : Json → Except Err String
  | .str s => .ok s
  | _ => .error (.runtime "value is not a string")

/-- HTTP method of a request, as the router compares it
(`req.method() == http::verb::get` and so on); `other` stands for every
verb the routing table does not name. -/
inductive Method where
  | get
  | post
  | other
deriving Repr, BEq

/-- The part of the HTTP request the router looks at.  The body field
holds the outcome of `boost::json::parse` on the request body:
`Except.error` is a parse failure (malformed JSON), which `json::parse`
raises as a `std::exception` inside the try block. -/
structure Request where
  method : Method
  target : String
  body : Except String Json

/-- The part of the HTTP response the claims are about: the status code
and the JSON body (`res.body() = json::serialize(...)` in the source; the
serialized value is kept as a `Json` value here). -/
structure Response where
  status : Nat
  body : Json
deriving Repr, BEq

/-- One serialized task object of the GET /tasks response array
(src/http_server.cpp 82-89). -/
def taskToJson (t : Task) : Json :=
  .obj [("id", .num t.id), ("title", .str t.title),
        ("description", .str t.description), ("completed", .bool t.completed)]

/-- The body of the try block of `HttpServer::handle_api_request`
(src/http_server.cpp 75-117): the routing table and the serialization of
each outcome.  Every raised error escapes to the catch clause, modelled
by the `Except` error. -/
def HttpServer.dispatch (s : Store) (req : Request) :
    Except Err (Response × Store) :=
  if req.method == .get && req.target == "/tasks" then
    match TaskManager.get_all_tasks s with
    | .error e => .error e
    | .ok tasks =>
        .ok ({ status := 200, body := .arr (tasks.map taskToJson) }, s)
  else if req.method == .post && req.target == "/tasks" then
    match req.body with
    | .error msg => .error (.runtime msg)
    | .ok request_json =>
        match request_json.as_object with
        | .error e => .error e
        | .ok members =>
            if !(Json.objContains members "title") then
              .error (.runtime "Field 'title' is required")
            else
              match (request_json.at_key "title").bind Json.as_string with
              | .error e => .error e
              | .ok title =>
                  match
                    (if Json.objContains members "description" then
                       (request_json.at_key "description").bind Json.as_string
                     else .ok "") with
                  | .error e => .error e
                  | .ok description =>
                      match TaskManager.create_task s title description with
                      | .error e => .error e
                      | .ok (id, s2) =>
                          .ok ({ status := 201, body := .obj [("id", .num id)] }, s2)
  else
    .ok ({ status := 404, body := .obj [("error", .str "Not found")] }, s)

/-- Shallow embedding of `HttpServer::handle_api_request`
(src/http_server.cpp 67-129): run the dispatch inside the catch-all
fault boundary.  `catch (const std::exception& e)` turns any C++
exception into a 500 response carrying `e.what()`; the undefined-behavior
outcome is not an exception and propagates (the process crashes). -/
def HttpServer.handle_api_request (s : Store) (req : Request) :
    Except Err (Response × Store) :=
  match HttpServer.dispatch s req with
  | .ok out => .ok out
  | .error e =>
      if e.catchable then
        .ok ({ status := 500, body := .obj [("error", .str e.what)] }, s)
      else .error e

/-- A service-layer operation of the kind claim C1 quantifies over. -/
inductive Op where
  | create (title description : String)
  | update (id : Int) (title description : String) (completed : Bool)

/-- The store after one TaskManager operation: the new store on success,
the unchanged store when the operation raises (the C++ exception
propagates before any row is touched) or crashes. -/
def applyOp (s : Store) (op : Op) : Store :=
  match op with
  | .create title description =>
      match TaskManager.create_task s title description with
      | .ok (_, s2) => s2
      | .error _ => s
  | .update id title description completed =>
      match TaskManager.update_task s id title description completed with
      | .ok (_, s2) => s2
      | .error _ => s

/-- Classifier for claim C10: whether the parse outcome of a POST body
is a successfully parsed JSON object whose title member is a string —
the one body shape that reaches `TaskManager::create_task`.  Everything
else (malformed JSON, a non-object value, a missing title member, a
non-string title member) makes the handler throw inside the try
block. -/
def postBodyHasStringTitle : Except String Json → Bool
  | .ok (.obj members) =>
      (match members.find? (fun kv => kv.fst == "title") with
       | some (_, .str _) => true
       | _ => false)
  | _ => false

/-- Whether a JSON value is an object carrying an error member. -/
def Json.hasErrorField : Json → Bool
  | .obj members => Json.objContains members "error"
  | _ => false

/-! Helper lemmas shared by several of the claim theorems. -/

/-- A title longer than 100 characters is in particular not empty. -/
theorem isEmpty_false_of_long {t : String} (h : t.length > 100) :
    t.isEmpty = false := by
  cases hb : t.isEmpty
  · rfl
  · exfalso
    have ht : t = "" := (String.isEmpty_iff t).mp hb
    subst ht
    exact absurd h (by decide)

/-- `Database::get_task_by_id` raises on every input: the inverted step
check throws when the row exists and reads NULL columns (undefined
behavior) when it does not. -/
theorem Database.get_task_by_id_raises (s : Store) (id : Int) :
    ∃ e : Err, (Database.get_task_by_id s id).result = .error e := by
  rcases h : s.rows.find? (fun r => r.id == id) with _ | r <;>
    simp [Database.get_task_by_id, h]

/-- `TaskManager::update_task` raises on every input: invalid arguments
raise directly, and otherwise the fetch through
`Database::get_task_by_id` raises before the UPDATE can run. -/
theorem TaskManager.update_task_raises (s : Store) (id : Int)
    (title description : String) (complited : Bool) :
    ∃ e : Err,
      TaskManager.update_task s id title description complited = .error e := by
  unfold TaskManager.update_task
  split
  · exact ⟨_, rfl⟩
  · split
    · exact ⟨_, rfl⟩
    · obtain ⟨e, he⟩ := Database.get_task_by_id_raises s id
      simp [he]

/-- An update operation never changes the store: the raised error (or the
crash) leaves every row as it was. -/
theorem applyOp_update (s : Store) (id : Int) (title description : String)
    (c : Bool) : applyOp s (.update id title description c) = s := by
  obtain ⟨e, he⟩ := TaskManager.update_task_raises s id title description c
  simp [applyOp, he]

/-- A create operation preserves the title invariant: the two validation
checks run before the INSERT, and the inserted row carries the validated
title. -/
theorem titleInv_create {s : Store}
    (hs : ∀ t ∈ s.rows, t.title.isEmpty = false ∧ t.title.length ≤ 100)
    (title description : String) :
    ∀ t ∈ (applyOp s (.create title description)).rows,
      t.title.isEmpty = false ∧ t.title.length ≤ 100 := by
  intro t ht
  cases hb : title.isEmpty with
  | true =>
      simp [applyOp, TaskManager.create_task, hb] at ht
      exact hs t ht
  | false =>
      by_cases hl : title.length > 100
      · simp [applyOp, TaskManager.create_task, hb, hl] at ht
        exact hs t ht
      · simp [applyOp, TaskManager.create_task, Database.add_task, hb, hl] at ht
        rcases ht with ht | rfl
        · exact hs t ht
        · refine ⟨hb, ?_⟩
          show title.length ≤ 100
          omega

/-- C1: store invariant.  Starting from the empty store, after any
sequence of createTask and updateTask operations every task that exists
in the store has a non-empty title of at most 100 characters: createTask
validates the title before inserting, and updateTask never changes the
store (its fetch raises before the UPDATE statement can run). -/
theorem createTask_updateTask_preserve_title_invariant (ops : List Op) :
    ∀ t ∈ (ops.foldl applyOp Store.empty).rows,
      t.title.isEmpty = false ∧ t.title.length ≤ 100 := by
  have main : ∀ (l : List Op) (s : Store),
      (∀ t ∈ s.rows, t.title.isEmpty = false ∧ t.title.length ≤ 100) →
      ∀ t ∈ (l.foldl applyOp s).rows,
        t.title.isEmpty = false ∧ t.title.length ≤ 100 := by
    intro l
    induction l with
    | nil => intro s hs; exact hs
    | cons op rest ih =>
        intro s hs t ht
        rw [List.foldl_cons] at ht
        cases op with
        | create title description =>
            exact ih _ (titleInv_create hs title description) t ht
        | update id title description completed =>
            rw [applyOp_update] at ht
            exact ih _ hs t ht
  exact main ops Store.empty (by intro t ht; simp [Store.empty] at ht)

/-- Witness for C1 at the concrete sequence consisting of one create. -/
theorem createTask_updateTask_preserve_title_invariant_witness :
    ({ id := 1, title := "a", description := "", completed := false } :
      Task).title.isEmpty = false ∧
    ({ id := 1, title := "a", description := "", completed := false } :
      Task).title.length ≤ 100 :=
  createTask_updateTask_preserve_title_invariant [Op.create "a" ""]
    { id := 1, title := "a", description := "", completed := false } (by decide)

/-- C2 (evidence of the code bug): for a positive id with no matching row
(store empty, id 1) and a non-empty title, updateTask does NOT return
false with the store unchanged — the inverted step check in
`Database::get_task_by_id` reads the result columns of a rowless
statement, and assigning the NULL `sqlite3_column_text` pointer to
`std::string` is undefined behavior, reached before the `id == 0` check
could produce the documented soft false.  The store is untouched at the
crash point. -/
theorem updateTask_missing_id_undefined_behavior :
    TaskManager.update_task Store.empty 1 "a" "" true =
      .error (.ub "null sqlite3_column_text assigned to std::string") ∧
    (Database.get_task_by_id Store.empty 1).store = Store.empty :=
  ⟨rfl, rfl⟩

/-- C3: a Store update or delete whose statement executes but changes
zero rows (no row matches the id) raises a StoreError
(`std::runtime_error` carrying `sqlite3_errmsg`, which reads "not an
error" after the successful step) and leaves the store unchanged, while
the exactly-one-row case returns true. -/
theorem store_zero_row_change_is_error (s s2 : Store) (task : Task)
    (id : Int) (h0 : s.rowCount task.id = 0) (h1 : s2.rowCount task.id = 1)
    (g0 : s.rowCount id = 0) (g1 : s2.rowCount id = 1) :
    (Database.update_task s task).result = .error (.runtime sqliteNotAnError) ∧
    (Database.update_task s task).store = s ∧
    (Database.delete_task s id).result = .error (.runtime sqliteNotAnError) ∧
    (Database.delete_task s id).store = s ∧
    (Database.update_task s2 task).result = .ok true ∧
    (Database.delete_task s2 id).result = .ok true := by
  refine ⟨?_, ?_, ?_, ?_, ?_, ?_⟩ <;>
    simp [Database.update_task, Database.delete_task, h0, h1, g0, g1]

/-- Witness for C3: the empty store has zero rows with id 1, and the
one-task store has exactly one. -/
theorem store_zero_row_change_is_error_witness :
    (Database.update_task Store.empty
      { id := 1, title := "a", description := "", completed := false }).result =
        .error (.runtime sqliteNotAnError) ∧
    (Database.update_task Store.empty
      { id := 1, title := "a", description := "", completed := false }).store =
        Store.empty ∧
    (Database.delete_task Store.empty 1).result =
        .error (.runtime sqliteNotAnError) ∧
    (Database.delete_task Store.empty 1).store = Store.empty ∧
    (Database.update_task
      { rows := [{ id := 1, title := "b", description := "", completed := false }],
        seq := 1 }
      { id := 1, title := "a", description := "", completed := false }).result =
        .ok true ∧
    (Database.delete_task
      { rows := [{ id := 1, title := "b", description := "", completed := false }],
        seq := 1 } 1).result = .ok true :=
  store_zero_row_change_is_error Store.empty
    { rows := [{ id := 1, title := "b", description := "", completed := false }],
      seq := 1 }
    { id := 1, title := "a", description := "", completed := false } 1
    rfl rfl rfl rfl

/-- C4: createTask with an empty title fails with the empty-title
ValidationError, and createTask with a title longer than 100 characters
fails with the too-long ValidationError, for every description and every
store; in both cases the store is unchanged (no row is added). -/
theorem createTask_validation_failures (s : Store) (t d : String)
    (ht : t.length > 100) :
    TaskManager.create_task s "" d =
      .error (.invalidArg "Task title cannot be empty") ∧
    applyOp s (.create "" d) = s ∧
    TaskManager.create_task s t d =
      .error (.invalidArg "Task title too long (max 100 chars)") ∧
    applyOp s (.create t d) = s := by
  have hne : t.isEmpty = false := isEmpty_false_of_long ht
  refine ⟨rfl, rfl, ?_, ?_⟩
  · simp [TaskManager.create_task, hne, ht]
  · simp [applyOp, TaskManager.create_task, hne, ht]

/-- Witness for C4 at a 101-character title. -/
theorem createTask_validation_failures_witness :
    TaskManager.create_task Store.empty "" "x" =
      .error (.invalidArg "Task title cannot be empty") ∧
    applyOp Store.empty (.create "" "x") = Store.empty ∧
    TaskManager.create_task Store.empty
      "aaaaaaaaaaaaaaaaaaaaaaaaaaaaaaaaaaaaaaaaaaaaaaaaaaaaaaaaaaaaaaaaaaaaaaaaaaaaaaaaaaaaaaaaaaaaaaaaaaaaa"
      "x" = .error (.invalidArg "Task title too long (max 100 chars)") ∧
    applyOp Store.empty
      (.create
        "aaaaaaaaaaaaaaaaaaaaaaaaaaaaaaaaaaaaaaaaaaaaaaaaaaaaaaaaaaaaaaaaaaaaaaaaaaaaaaaaaaaaaaaaaaaaaaaaaaaaa"
        "x") = Store.empty :=
  createTask_validation_failures Store.empty
    "aaaaaaaaaaaaaaaaaaaaaaaaaaaaaaaaaaaaaaaaaaaaaaaaaaaaaaaaaaaaaaaaaaaaaaaaaaaaaaaaaaaaaaaaaaaaaaaaaaaaa"
    "x" (by decide)

/-- C5 (evidence of the code bug): `TaskManager::update_task` can never
return true — on every input it raises (validation, the not-found
runtime error that `Database::get_task_by_id` throws for an EXISTING id,
or the undefined-behavior crash for a missing id) — so the round-trip
premise "updateTask succeeds" is unsatisfiable.  At the concrete store
holding task 1, updating task 1 raises "Task not found with id: 1". -/
theorem updateTask_never_returns_true :
    (∀ (s : Store) (id : Int) (title description : String) (c : Bool),
       ∃ e : Err,
         TaskManager.update_task s id title description c = .error e) ∧
    TaskManager.update_task
      { rows := [{ id := 1, title := "old", description := "", completed := false }],
        seq := 1 } 1 "new" "d" true =
      .error (.runtime "Task not found with id: 1") :=
  ⟨TaskManager.update_task_raises, rfl⟩

/-- C6 (evidence of the code bug): createTask on the empty store succeeds
with the fresh positive id 1 and persists the row, but the subsequent
getTask(1) raises "Task not found with id: 1" instead of returning the
task, because the step check of `Database::get_task_by_id` is inverted
(the else branch that throws is taken exactly when the row exists). -/
theorem createTask_then_getTask_fails :
    TaskManager.create_task Store.empty "Buy milk" "" =
      .ok (1,
        { rows := [{ id := 1, title := "Buy milk", description := "",
                     completed := false }], seq := 1 }) ∧
    TaskManager.get_task
      { rows := [{ id := 1, title := "Buy milk", description := "",
                   completed := false }], seq := 1 } 1 =
      .error (.runtime "Task not found with id: 1") :=
  ⟨rfl, rfl⟩

/-- C7 (evidence of the code bug): deleteTask(1) on the store holding
task 1 succeeds, but the subsequent getTask(1) does not fail with the
NotFoundError ("Task not found") of `TaskManager::get_task` — the
inverted step check in `Database::get_task_by_id` reaches undefined
behavior (NULL column text assigned to `std::string`) before
`TaskManager::get_task` can inspect the fetched id. -/
theorem deleteTask_then_getTask_undefined_behavior :
    TaskManager.delete_task
      { rows := [{ id := 1, title := "Buy milk", description := "",
                   completed := false }], seq := 1 } 1 =
      .ok (true, { rows := [], seq := 1 }) ∧
    TaskManager.get_task { rows := [], seq := 1 } 1 =
      .error (.ub "null sqlite3_column_text assigned to std::string") :=
  ⟨rfl, rfl⟩

/-- C9 (counterexample): on the zero-rows-changed path of
`Database::update_task` the method raises its StoreError without ever
reaching `sqlite3_finalize` — the prepared statement is not released on
that exit path. -/
theorem updateTask_zero_row_throw_skips_finalize :
    (Database.update_task Store.empty
      { id := 1, title := "a", description := "", completed := false }).result =
      .error (.runtime sqliteNotAnError) ∧
    (Database.update_task Store.empty
      { id := 1, title := "a", description := "", completed := false }).finalized =
      false :=
  ⟨rfl, rfl⟩

/-- C9 (amended): every prepared statement is finalized on every exit
path reachable in the in-memory model EXCEPT the zero-rows-changed
StoreError throw of `Database::update_task` and
`Database::delete_task` (the throw precedes the finalize) and the
no-row undefined-behavior path of `Database::get_task_by_id` (the crash
precedes the finalize): addTask and getAllTasks always finalize,
update/delete finalize exactly when at least one row matched, and
getTaskById finalizes exactly when the row exists. -/
theorem prepared_statement_finalization (s : Store) (task : Task)
    (id : Int) :
    (Database.add_task s task).finalized = true ∧
    (Database.get_all_tasks s).finalized = true ∧
    (Database.update_task s task).finalized = !(s.rowCount task.id == 0) ∧
    (Database.delete_task s id).finalized = !(s.rowCount id == 0) ∧
    (Database.get_task_by_id s id).finalized =
      (s.rows.find? (fun r => r.id == id)).isSome := by
  refine ⟨rfl, rfl, ?_, ?_, ?_⟩
  · cases hB : s.rowCount task.id == 0 <;> simp [Database.update_task, hB]
  · cases hB : s.rowCount id == 0 <;> simp [Database.delete_task, hB]
  · rcases h : s.rows.find? (fun r => r.id == id) with _ | r <;>
      simp [Database.get_task_by_id, h]

/-- `boost::json::value::as_object` raises an ordinary catchable
exception. -/
theorem Json.as_object_error {j : Json} {e : Err}
    (h : j.as_object = .error e) : e.catchable = true := by
  cases j <;> simp only [Json.as_object] at h
  case obj members => exact Except.noConfusion h
  all_goals (injection h with h1; subst h1; rfl)

/-- `boost::json::value::at` raises an ordinary catchable exception. -/
theorem Json.at_key_error {j : Json} {k : String} {e : Err}
    (h : j.at_key k = .error e) : e.catchable = true := by
  cases j <;> simp only [Json.at_key] at h
  case obj members =>
    rcases hf : members.find? (fun kv => kv.fst == k) with _ | kv
    · rw [hf] at h
      injection h with h1
      subst h1
      rfl
    · rw [hf] at h
      exact Except.noConfusion h
  all_goals (injection h with h1; subst h1; rfl)

/-- `boost::json::value::as_string` raises an ordinary catchable
exception. -/
theorem Json.as_string_error {j : Json} {e : Err}
    (h : j.as_string = .error e) : e.catchable = true := by
  cases j <;> simp only [Json.as_string] at h
  case str v => exact Except.noConfusion h
  all_goals (injection h with h1; subst h1; rfl)

/-- Extracting a string member raises only catchable exceptions. -/
theorem at_key_bind_as_string_error {j : Json} {k : String} {e : Err}
    (h : (j.at_key k).bind Json.as_string = .error e) : e.catchable = true := by
  rcases ha : j.at_key k with e2 | v
  · rw [ha] at h
    simp only [Except.bind] at h
    injection h with h1
    subst h1
    exact Json.at_key_error ha
  · rw [ha] at h
    simp only [Except.bind] at h
    exact Json.as_string_error h

/-- `TaskManager::create_task` raises only its two validation errors
(`std::invalid_argument`), both catchable; the INSERT itself succeeds in
the in-memory model. -/
theorem create_task_error_catchable {s : Store} {t d : String} {e : Err}
    (h : TaskManager.create_task s t d = .error e) : e.catchable = true := by
  unfold TaskManager.create_task at h
  split at h
  · injection h with h1; subst h1; rfl
  split at h
  · injection h with h1; subst h1; rfl
  simp [Database.add_task] at h

/-- Every error the try block of the router can raise is an ordinary
`std::exception` the catch clause handles (no dispatched branch reaches
the undefined-behavior path of `Database::get_task_by_id`, since neither
GET /tasks nor POST /tasks calls it). -/
theorem dispatch_error_catchable (s : Store) (req : Request) (e : Err)
    (h : HttpServer.dispatch s req = .error e) : e.catchable = true := by
  unfold HttpServer.dispatch at h
  split at h
  · simp [TaskManager.get_all_tasks, Database.get_all_tasks] at h
  split at h
  · -- the POST /tasks branch
    split at h
    · -- json::parse raised
      injection h with h1; subst h1; rfl
    · -- parse succeeded
      split at h
      · -- as_object raised
        rename_i e1 heq
        injection h with h1
        subst h1
        exact Json.as_object_error heq
      · -- as_object succeeded
        rename_i members hmem
        split at h
        · -- missing title member
          injection h with h1; subst h1; rfl
        · split at h
          · -- extracting the title raised
            rename_i e1 heq
            injection h with h1
            subst h1
            exact at_key_bind_as_string_error heq
          · split at h
            · -- extracting the description raised
              rename_i e1 heq
              injection h with h1
              subst h1
              by_cases hdesc : Json.objContains members "description" = true
              · rw [if_pos hdesc] at heq
                exact at_key_bind_as_string_error heq
              · rw [if_neg hdesc] at heq
                exact Except.noConfusion heq
            · split at h
              · -- create_task raised a validation error
                rename_i e1 heq
                injection h with h1
                subst h1
                exact create_task_error_catchable heq
              · exact Except.noConfusion h
  · -- the 404 branch raises nothing
    exact Except.noConfusion h

/-- The POST verb is not the GET verb. -/
theorem method_post_beq_get : (Method.post == Method.get) = false := rfl

/-- The POST verb equals itself. -/
theorem method_post_beq_post : (Method.post == Method.post) = true := rfl

/-- `boost::json::object::contains` agrees with the member lookup used by
`at`. -/
theorem objContains_eq_isSome (members : List (String × Json)) (k : String) :
    Json.objContains members k =
      (members.find? (fun kv => kv.fst == k)).isSome := by
  rw [Json.objContains]
  induction members with
  | nil => rfl
  | cons kv rest ih => cases hk : kv.fst == k <;> simp [List.find?, hk, ih]

/-- C8: router fault boundary.  For every request dispatched to GET
/tasks or POST /tasks, if the dispatched computation raises any error,
the response is status 500 with the JSON body carrying the raised
error's message in the error field — uniformly, with no distinction
between validation, not-found and store errors (never 400 or 404), and
the store is left unchanged. -/
theorem router_maps_every_error_to_500 (s : Store) (req : Request) (e : Err)
    (hroute : (req.method == .get && req.target == "/tasks") = true ∨
              (req.method == .post && req.target == "/tasks") = true)
    (herr : HttpServer.dispatch s req = .error e) :
    HttpServer.handle_api_request s req =
      .ok ({ status := 500, body := .obj [("error", .str e.what)] }, s) := by
  unfold HttpServer.handle_api_request
  rw [herr]
  simp [dispatch_error_catchable s req e herr]

/-- Witness for C8: POST /tasks with an empty title raises the
empty-title ValidationError and the response is 500 (not 400) carrying
that message. -/
theorem router_maps_every_error_to_500_witness :
    HttpServer.handle_api_request Store.empty
      { method := .post, target := "/tasks",
        body := .ok (.obj [("title", .str "")]) } =
      .ok ({ status := 500,
             body := .obj [("error", .str "Task title cannot be empty")] },
           Store.empty) :=
  router_maps_every_error_to_500 Store.empty
    { method := .post, target := "/tasks",
      body := .ok (.obj [("title", .str "")]) }
    (.invalidArg "Task title cannot be empty") (Or.inr rfl) rfl

/-- C10: a POST /tasks request whose body does not parse to a JSON
object with a string title member — malformed JSON, a non-object value,
a missing title member, or a non-string title member — yields a 500
response whose JSON body carries an error field, and the store is
returned unchanged (no task is added). -/
theorem post_bad_body_gives_500 (s : Store) (b : Except String Json)
    (hbad : postBodyHasStringTitle b = false) :
    ∃ rsp : Response,
      HttpServer.handle_api_request s
        { method := .post, target := "/tasks", body := b } = .ok (rsp, s) ∧
      rsp.status = 500 ∧ rsp.body.hasErrorField = true := by
  have hdisp : ∃ e : Err,
      HttpServer.dispatch s { method := .post, target := "/tasks", body := b } =
        .error e := by
    cases b with
    | error msg => exact ⟨.runtime msg, rfl⟩
    | ok j =>
        cases j with
        | null => exact ⟨.runtime "value is not an object", rfl⟩
        | bool v => exact ⟨.runtime "value is not an object", rfl⟩
        | num v => exact ⟨.runtime "value is not an object", rfl⟩
        | str v => exact ⟨.runtime "value is not an object", rfl⟩
        | arr v => exact ⟨.runtime "value is not an object", rfl⟩
        | obj members =>
            rcases hf : members.find? (fun kv => kv.fst == "title") with _ | kv
            · have hcont : Json.objContains members "title" = false := by
                rw [objContains_eq_isSome, hf]
                rfl
              refine ⟨.runtime "Field 'title' is required", ?_⟩
              simp [HttpServer.dispatch, Json.as_object, hcont,
                    method_post_beq_get, method_post_beq_post]
            · have hcont : Json.objContains members "title" = true := by
                rw [objContains_eq_isSome, hf]
                rfl
              obtain ⟨k, v⟩ := kv
              cases v with
              | str sv =>
                  exfalso
                  simp [postBodyHasStringTitle, hf] at hbad
              | null =>
                  refine ⟨.runtime "value is not a string", ?_⟩
                  simp [HttpServer.dispatch, Json.as_object, hcont, Json.at_key,
                        hf, Json.as_string, Except.bind,
                        method_post_beq_get, method_post_beq_post]
              | bool v =>
                  refine ⟨.runtime "value is not a string", ?_⟩
                  simp [HttpServer.dispatch, Json.as_object, hcont, Json.at_key,
                        hf, Json.as_string, Except.bind,
                        method_post_beq_get, method_post_beq_post]
              | num v =>
                  refine ⟨.runtime "value is not a string", ?_⟩
                  simp [HttpServer.dispatch, Json.as_object, hcont, Json.at_key,
                        hf, Json.as_string, Except.bind,
                        method_post_beq_get, method_post_beq_post]
              | arr v =>
                  refine ⟨.runtime "value is not a string", ?_⟩
                  simp [HttpServer.dispatch, Json.as_object, hcont, Json.at_key,
                        hf, Json.as_string, Except.bind,
                        method_post_beq_get, method_post_beq_post]
              | obj v =>
                  refine ⟨.runtime "value is not a string", ?_⟩
                  simp [HttpServer.dispatch, Json.as_object, hcont, Json.at_key,
                        hf, Json.as_string, Except.bind,
                        method_post_beq_get, method_post_beq_post]
  obtain ⟨e, hd⟩ := hdisp
  have hc := dispatch_error_catchable _ _ _ hd
  refine ⟨{ status := 500, body := .obj [("error", .str e.what)] }, ?_, rfl, rfl⟩
  unfold HttpServer.handle_api_request
  rw [hd]
  simp [hc]

/-- Witness for C10 at a body whose title member is a number. -/
theorem post_bad_body_gives_500_witness :
    ∃ rsp : Response,
      HttpServer.handle_api_request Store.empty
        { method := .post, target := "/tasks",
          body := .ok (.obj [("title", .num 1)]) } = .ok (rsp, Store.empty) ∧
      rsp.status = 500 ∧ rsp.body.hasErrorField = true :=
  post_bad_body_gives_500 Store.empty (.ok (.obj [("title", .num 1)])) rfl

end TaskServer
